import Mathlib

/-!
Verification development for the QDirStat selection-state synchronizer
(SelectionModel.h) and the file-age statistics window
(FileAgeStatsWindow.cpp).

The selection synchronizer is shipped as a header only; its operations are
modelled from the specification (see the doc comments below).  The
file-age statistics functions are embedded directly from the source.
-/

namespace QDirStat

/-- Opaque, stable identity of a domain item (a FileInfo pointer). -/
abbrev ItemId := Nat

/-- Opaque position token of the view framework (a QModelIndex). -/
abbrev Pos := Nat

/-- Modelled from the spec: the IdentityResolver collaborator interface
(SelectionModel.cpp is not in the sources).  It maps a domain-item
identity to and from the view framework position token, returning
absence rather than failing. -/
structure IdentityResolver where
  toPos : ItemId → Option Pos
  toId : Pos → Option ItemId

/-- A resolver is coherent when resolving an identity to a position and
that position back yields the original identity. -/
def IdentityResolver.Coherent (r : IdentityResolver) : Prop :=
  ∀ a p, r.toPos a = some p → r.toId p = some a

/-- Modelled from the spec: the PositionSelectionStore collaborator
interface (the QItemSelectionModel base class, whose implementation is
not in the sources): the set of selected positions and the single
current position. -/
structure PositionStore where
  selected : List Pos
  current : Option Pos

/-- Modelled from the spec and the SelectionModel.h data members
(SelectionModel.cpp is not in the sources): the position store of the
base class, the cached current item, the cached identity selection and
its dirty flag. -/
structure SelectionModel where
  store : PositionStore
  currentItem : Option ItemId
  selectedItemsCache : List ItemId
  selectedItemsDirty : Bool

/-- Identity-based events of the SelectionModel, as declared in
SelectionModel.h: selectionChanged with no payload, selectionChanged
with the fresh selection as payload, and currentItemChanged. -/
inductive Event where
  | selectionChangedNoPayload : Event
  | selectionChangedItems (items : List ItemId) : Event
  | currentItemChanged (newCurrent oldCurrent : Option ItemId) : Event
deriving DecidableEq

/-- The state an observer can see during a notification: the current
item and the identity selection. -/
abbrev Obs := Option ItemId × List ItemId

/-- Modelled from the spec: the identity-resolution walk of the cache.
It translates every selected position, silently dropping the positions
that fail to resolve. -/
def computeSelectedItems (r : IdentityResolver) (ps : List Pos) : List ItemId :=
  ps.filterMap r.toId

/-- The observable state of the model: current item, plus the identity
selection freshly derived from the position store. -/
def SelectionModel.obs (r : IdentityResolver) (m : SelectionModel) : Obs :=
  (m.currentItem, computeSelectedItems r m.store.selected)

/-- Result of a selectedItems() call: the possibly updated model, the
returned set, and how many identity-resolution walks were performed. -/
structure GetResult where
  model : SelectionModel
  items : List ItemId
  resolverWalks : Nat

/-- Modelled from the spec: SelectionModel::selectedItems()
(SelectionModel.cpp is not in the sources).  If the cache is dirty it
recomputes the identity set from the position store via the resolver
(one walk), stores it and clears the dirty flag; otherwise it returns
the cached set without walking. -/
def SelectionModel.selectedItems (r : IdentityResolver) (m : SelectionModel) : GetResult :=
  if m.selectedItemsDirty then
    let items := computeSelectedItems r m.store.selected
    { model := { m with selectedItemsCache := items, selectedItemsDirty := false }
      items := items
      resolverWalks := 1 }
  else
    { model := m, items := m.selectedItemsCache, resolverWalks := 0 }

/-- Modelled from the spec: the two selection events emitted after a
selection mutation, in order selectionChanged() then
selectionChanged(items) with the fresh selection as payload, each
annotated with the observable state at emission time. -/
def selectionEvents (r : IdentityResolver) (m : SelectionModel) : List (Event × Obs) :=
  [(Event.selectionChangedNoPayload, m.obs r),
   (Event.selectionChangedItems (computeSelectedItems r m.store.selected), m.obs r)]

/-- Modelled from the spec: SelectionModel::setSelectedItems
(SelectionModel.cpp is not in the sources).  Replaces the selection
with the given identity set, dropping duplicates and ignoring the
identities that fail to resolve to a position, marks the cache dirty,
then emits the selection events. -/
def SelectionModel.setSelectedItems (r : IdentityResolver) (m : SelectionModel)
    (items : List ItemId) : SelectionModel × List (Event × Obs) :=
  let ps := items.dedup.filterMap r.toPos
  let m1 := { m with store := { m.store with selected := ps }, selectedItemsDirty := true }
  (m1, selectionEvents r m1)

/-- Modelled from the spec: SelectionModel::selectItem
(SelectionModel.cpp is not in the sources).  Replaces the entire
selection with the single item; an absent item, like an item that fails
to resolve, selects nothing, so everything is deselected.  Does not
alter the current item. -/
def SelectionModel.selectItem (r : IdentityResolver) (m : SelectionModel)
    (item : Option ItemId) : SelectionModel × List (Event × Obs) :=
  let ps := (item.bind r.toPos).toList
  let m1 := { m with store := { m.store with selected := ps }, selectedItemsDirty := true }
  (m1, selectionEvents r m1)

/-- Modelled from the spec: SelectionModel::extendSelection
(SelectionModel.cpp is not in the sources).  With clear it behaves as
selectItem; with an absent item the selection remains unchanged;
otherwise the item is added to the selection (a resolution miss adds
nothing).  Does not alter the current item. -/
def SelectionModel.extendSelection (r : IdentityResolver) (m : SelectionModel)
    (item : Option ItemId) (clear : Bool) : SelectionModel × List (Event × Obs) :=
  if clear then
    m.selectItem r item
  else
    match item with
    | none => (m, [])
    | some a =>
      let ps := match r.toPos a with
        | none => m.store.selected
        | some p => m.store.selected.insert p
      let m1 := { m with store := { m.store with selected := ps }, selectedItemsDirty := true }
      (m1, selectionEvents r m1)

/-- Modelled from the spec: SelectionModel::setCurrentItem
(SelectionModel.cpp is not in the sources).  Sets the current item;
with select it additionally replaces the selection with the single item
as one atomic unit: the whole state is updated before any event is
emitted, so every emitted event carries the final observable state. -/
def SelectionModel.setCurrentItem (r : IdentityResolver) (m : SelectionModel)
    (item : Option ItemId) (select : Bool) : SelectionModel × List (Event × Obs) :=
  let oldCurrent := m.currentItem
  let newPos := item.bind r.toPos
  if select then
    let m1 : SelectionModel :=
      { store := { selected := newPos.toList, current := newPos }
        currentItem := item
        selectedItemsCache := m.selectedItemsCache
        selectedItemsDirty := true }
    (m1, (Event.currentItemChanged item oldCurrent, m1.obs r) :: selectionEvents r m1)
  else
    let m1 := { m with store := { m.store with current := newPos }, currentItem := item }
    (m1, [(Event.currentItemChanged item oldCurrent, m1.obs r)])

/-- Modelled from the spec: SelectionModelProxy (the signal forwarding
of SelectionModel.cpp is not in the sources).  One proxy per observer;
while its mute switch is engaged it forwards nothing, otherwise it
forwards every event of the master unchanged. -/
structure SelectionModelProxy where
  muted : Bool

/-- Modelled from the spec: delivery of a master event trace through a
proxy — everything when unmuted, nothing while muted. -/
def SelectionModelProxy.deliver (p : SelectionModelProxy)
    (trace : List (Event × Obs)) : List (Event × Obs) :=
  if p.muted then [] else trace

/-- The payloads of the selectionChanged(items) events of a trace. -/
def selectionItemsPayloads (trace : List (Event × Obs)) : List (List ItemId) :=
  trace.filterMap fun e =>
    match e.1 with
    | Event.selectionChangedItems items => some items
    | _ => none

/-! ## FileAgeStatsWindow (embedded from src/src/FileAgeStatsWindow.cpp) -/

/-- Per-year statistics of a YearListItem.  The percent fields are
float in the source; they are modelled as integers here since only
their ordering is ever used. -/
structure YearStats where
  year : Int
  filesCount : Int
  filesPercent : Int
  size : Int
  sizePercent : Int
deriving DecidableEq

/-- Column numbers of the year list, in the order of the header labels
set up in initWidgets. -/
def YearListYearCol : Nat := 0

def YearListFilesCountCol : Nat := 1

def YearListFilesPercentBarCol : Nat := 2

def YearListFilesPercentCol : Nat := 3

def YearListSizeCol : Nat := 4

def YearListSizePercentBarCol : Nat := 5

def YearListSizePercentCol : Nat := 6

/-- A QTreeWidgetItem in the year list: either a YearListItem carrying
its YearStats, or a tree widget item of some other type.  Both carry
their per-column display text. -/
inductive TreeWidgetItem where
  | yearListItem (stats : YearStats) (text : Nat → String)
  | plainItem (text : Nat → String)

/-- The display text of a tree widget item in a column. -/
def TreeWidgetItem.text : TreeWidgetItem → Nat → String
  | TreeWidgetItem.yearListItem _ t => t
  | TreeWidgetItem.plainItem t => t

/-- The error of a failed dynamic_cast on a reference. -/
inductive SortError where
  | badCast
deriving DecidableEq

/-- QTreeWidgetItem base class comparison: lexicographic comparison of
the display text in the sort column. -/
def qTreeWidgetItemLt (self other : TreeWidgetItem) (col : Nat) : Bool :=
  compare (self.text col) (other.text col) == Ordering.lt

/-- YearListItem::operator< from FileAgeStatsWindow.cpp.  The reference
dynamic_cast of rawOther happens first and throws std::bad_cast — here
Except.error — when rawOther is not a YearListItem; it is deliberately
not caught.  Then the stats field of the sort column decides, falling
back to the base class comparison for any other column. -/
def YearListItem.lt (stats : YearStats) (text : Nat → String) (col : Nat)
    (rawOther : TreeWidgetItem) : Except SortError Bool :=
  match rawOther with
  | TreeWidgetItem.plainItem _ => Except.error SortError.badCast
  | TreeWidgetItem.yearListItem oStats _ =>
    if col = YearListYearCol then Except.ok (decide (stats.year < oStats.year))
    else if col = YearListFilesCountCol then Except.ok (decide (stats.filesCount < oStats.filesCount))
    else if col = YearListFilesPercentBarCol ∨ col = YearListFilesPercentCol then
      Except.ok (decide (stats.filesPercent < oStats.filesPercent))
    else if col = YearListSizeCol then Except.ok (decide (stats.size < oStats.size))
    else if col = YearListSizePercentBarCol ∨ col = YearListSizePercentCol then
      Except.ok (decide (stats.sizePercent < oStats.sizePercent))
    else Except.ok (qTreeWidgetItemLt (TreeWidgetItem.yearListItem stats text) rawOther col)

/-- The inclusive integer range walked by the for loop of findGaps:
lo, lo + 1, ..., hi (empty when hi < lo). -/
def intRangeIncl (lo hi : Int) : List Int :=
  (List.range (hi + 1 - lo).toNat).map fun i : Nat => lo + (i : Int)

/-- FileAgeStatsWindow::findGaps from FileAgeStatsWindow.cpp, with the
collected years list, the _startGapsWithCurrentYear flag and the value
of thisYear() as parameters.  Returns the empty list for an empty year
list; otherwise picks lastYear, returns the empty list early when
lastYear - years.first() equals years.count() - 1, and otherwise
collects every year of the inclusive range from years.first() to
lastYear that the years list does not contain. -/
def findGaps (years : List Int) (startGapsWithCurrentYear : Bool)
    (thisYear : Int) : List Int :=
  if years.isEmpty then []
  else
    let lastYear := if startGapsWithCurrentYear then thisYear else years.getLast!
    if lastYear - years.head! = (years.length : Int) - 1 then []
    else (intRangeIncl years.head! lastYear).filter fun yr => decide (yr ∉ years)

/-- The lastYear value findGaps uses for a non-empty years list. -/
def lastYearOf (years : List Int) (startGapsWithCurrentYear : Bool)
    (thisYear : Int) : Int :=
  if startGapsWithCurrentYear then thisYear else years.getLast!

/-- Value of MAX_LOCATE_FILES in FileAgeStatsWindow.cpp. -/
def MAX_LOCATE_FILES : Int := 1000

/-- FileAgeStatsWindow::selectedItem: the current tree widget item cast
to YearListItem — absent when nothing is current, and the pointer
dynamic_cast yields null when the current item is not a YearListItem. -/
def selectedItem (currentItem : Option TreeWidgetItem) : Option YearStats :=
  match currentItem with
  | none => none
  | some (TreeWidgetItem.yearListItem s _) => some s
  | some (TreeWidgetItem.plainItem _) => none

/-- FileAgeStatsWindow::selectedYear: the year of the selected
YearListItem, or -1 when there is none. -/
def selectedYear (currentItem : Option TreeWidgetItem) : Int :=
  match selectedItem currentItem with
  | some s => s.year
  | none => -1

/-- FileAgeStatsWindow::enableActions: the locate button is enabled
exactly when a YearListItem is selected and its filesCount is positive
and at most MAX_LOCATE_FILES. -/
def enableActions (currentItem : Option TreeWidgetItem) : Bool :=
  match selectedItem currentItem with
  | some s => decide (s.filesCount > 0) && decide (s.filesCount ≤ MAX_LOCATE_FILES)
  | none => false

/-- FileAgeStatsWindow::locateFiles: emits locateFilesFromYear(year)
— modelled as some year — exactly when the selected year is strictly
positive. -/
def locateFiles (currentItem : Option TreeWidgetItem) : Option Int :=
  let year := selectedYear currentItem
  if year > 0 then some year else none

/-! ## Concrete instances used by witnesses -/

/-- A concrete coherent resolver: identity and position coincide. -/
def idResolver : IdentityResolver :=
  { toPos := fun a => some a, toId := fun p => some p }

/-- A concrete resolver that resolves item 1 only: a resolution miss
for every other identity. -/
def missResolver : IdentityResolver :=
  { toPos := fun a => if a = 1 then some 1 else none, toId := fun p => some p }

/-! ## Theorems -/

theorem idResolver_coherent : idResolver.Coherent := by
  intro a p h
  simp only [idResolver] at h ⊢
  exact h.symm

theorem missResolver_coherent : missResolver.Coherent := by
  intro a p h
  simp only [missResolver] at h ⊢
  by_cases ha : a = 1
  · subst ha
    simp at h
    subst h
    rfl
  · simp [ha] at h

theorem IdentityResolver.filterMap_roundtrip (r : IdentityResolver) (hc : r.Coherent) :
    ∀ l : List ItemId, (∀ a ∈ l, (r.toPos a).isSome) →
      (l.filterMap r.toPos).filterMap r.toId = l := by
  intro l
  induction l with
  | nil => intro _; rfl
  | cons a l ih =>
    intro h
    obtain ⟨p, hp⟩ := Option.isSome_iff_exists.mp (h a (List.mem_cons_self a l))
    rw [List.filterMap_cons, hp, List.filterMap_cons, hc a p hp,
      ih fun b hb => h b (List.mem_cons_of_mem a hb)]

theorem IdentityResolver.mem_filterMap_roundtrip (r : IdentityResolver) (hc : r.Coherent)
    (l : List ItemId) (x : ItemId) :
    x ∈ (l.filterMap r.toPos).filterMap r.toId ↔ x ∈ l ∧ (r.toPos x).isSome := by
  constructor
  · intro hx
    obtain ⟨p, hp, hpx⟩ := List.mem_filterMap.mp hx
    obtain ⟨y, hy, hyp⟩ := List.mem_filterMap.mp hp
    have hxy : y = x := by
      have h2 := hc y p hyp
      rw [h2] at hpx
      exact Option.some.inj hpx
    subst hxy
    exact ⟨hy, Option.isSome_iff_exists.mpr ⟨p, hyp⟩⟩
  · rintro ⟨hx, hsome⟩
    obtain ⟨p, hp⟩ := Option.isSome_iff_exists.mp hsome
    exact List.mem_filterMap.mpr ⟨p, List.mem_filterMap.mpr ⟨x, hx, hp⟩, hc x p hp⟩

/-- Claim C1: per-proxy echo suppression.  With three proxies A, B, C
bound to one SelectionModel, if A is muted while setSelectedItems is
performed with the single item x (which resolves), then A delivers zero
events and B and C each deliver exactly one selectionChanged(items)
event whose payload is the singleton of x. -/
theorem proxy_echo_suppression (r : IdentityResolver) (m : SelectionModel) (x : ItemId)
    (px : Pos) (pa pb pc : SelectionModelProxy)
    (hc : r.Coherent) (hx : r.toPos x = some px)
    (ha : pa.muted = true) (hb : pb.muted = false) (hpc : pc.muted = false) :
    pa.deliver (m.setSelectedItems r [x]).2 = [] ∧
    selectionItemsPayloads (pb.deliver (m.setSelectedItems r [x]).2) = [[x]] ∧
    selectionItemsPayloads (pc.deliver (m.setSelectedItems r [x]).2) = [[x]] := by
  have hid := hc x px hx
  have hdedup : ([x] : List ItemId).dedup = [x] := by simp
  refine ⟨?_, ?_, ?_⟩ <;>
    simp [SelectionModelProxy.deliver, ha, hb, hpc, SelectionModel.setSelectedItems,
      selectionEvents, selectionItemsPayloads, computeSelectedItems, hdedup, hx, hid]

/-- Witness for C1 at a concrete resolver, model, item and proxies. -/
theorem proxy_echo_suppression_witness :
    idResolver.Coherent ∧ idResolver.toPos 5 = some 5 ∧
    (SelectionModelProxy.mk true).muted = true ∧
    (SelectionModelProxy.mk false).muted = false ∧
    (SelectionModelProxy.mk true).deliver
      ((SelectionModel.mk ⟨[], none⟩ none [] false).setSelectedItems idResolver [5]).2 = [] ∧
    selectionItemsPayloads ((SelectionModelProxy.mk false).deliver
      ((SelectionModel.mk ⟨[], none⟩ none [] false).setSelectedItems idResolver [5]).2) = [[5]] :=
  ⟨idResolver_coherent, rfl, rfl, rfl,
    (proxy_echo_suppression idResolver (SelectionModel.mk ⟨[], none⟩ none [] false) 5 5
      (SelectionModelProxy.mk true) (SelectionModelProxy.mk false) (SelectionModelProxy.mk false)
      idResolver_coherent rfl rfl rfl rfl).1,
    (proxy_echo_suppression idResolver (SelectionModel.mk ⟨[], none⟩ none [] false) 5 5
      (SelectionModelProxy.mk true) (SelectionModelProxy.mk false) (SelectionModelProxy.mk false)
      idResolver_coherent rfl rfl rfl rfl).2.1⟩

/-- Claim C2: cache memoization.  When the cache is dirty — which every
selection-mutating operation makes it — the first selectedItems() call
performs exactly one identity-resolution walk and recomputes the set
from the position store, and a second call with no intervening mutation
performs no walk and returns the same set. -/
theorem selectedItems_cache_memoization (r : IdentityResolver) (m : SelectionModel)
    (h : m.selectedItemsDirty = true) :
    (m.selectedItems r).resolverWalks = 1 ∧
    (m.selectedItems r).items = computeSelectedItems r m.store.selected ∧
    ((m.selectedItems r).model.selectedItems r).resolverWalks = 0 ∧
    ((m.selectedItems r).model.selectedItems r).items = (m.selectedItems r).items ∧
    (∀ items, (m.setSelectedItems r items).1.selectedItemsDirty = true) ∧
    (∀ item, (m.selectItem r item).1.selectedItemsDirty = true) ∧
    (∀ a clear, (m.extendSelection r (some a) clear).1.selectedItemsDirty = true) ∧
    (∀ item, (m.setCurrentItem r item true).1.selectedItemsDirty = true) := by
  refine ⟨?_, ?_, ?_, ?_, ?_, ?_, ?_, ?_⟩
  · simp [SelectionModel.selectedItems, h]
  · simp [SelectionModel.selectedItems, h]
  · simp [SelectionModel.selectedItems, h]
  · simp [SelectionModel.selectedItems, h]
  · intro items
    simp [SelectionModel.setSelectedItems]
  · intro item
    simp [SelectionModel.selectItem]
  · intro a clear
    cases clear with
    | true => simp [SelectionModel.extendSelection, SelectionModel.selectItem]
    | false => simp [SelectionModel.extendSelection]
  · intro item
    simp [SelectionModel.setCurrentItem]

/-- Witness for C2 at a concrete resolver and dirty model. -/
theorem selectedItems_cache_memoization_witness :
    (SelectionModel.mk ⟨[3], none⟩ none [] true).selectedItemsDirty = true ∧
    ((SelectionModel.mk ⟨[3], none⟩ none [] true).selectedItems idResolver).resolverWalks = 1 ∧
    ((SelectionModel.mk ⟨[3], none⟩ none [] true).selectedItems idResolver).items =
      computeSelectedItems idResolver [3] ∧
    (((SelectionModel.mk ⟨[3], none⟩ none [] true).selectedItems idResolver).model.selectedItems
      idResolver).resolverWalks = 0 :=
  ⟨rfl,
    (selectedItems_cache_memoization idResolver (SelectionModel.mk ⟨[3], none⟩ none [] true) rfl).1,
    (selectedItems_cache_memoization idResolver (SelectionModel.mk ⟨[3], none⟩ none [] true) rfl).2.1,
    (selectedItems_cache_memoization idResolver (SelectionModel.mk ⟨[3], none⟩ none [] true) rfl).2.2.1⟩

/-- Claim C3: on a state with a non-empty selection, selectItem with an
absent item clears the selection to the empty set, whereas
extendSelection with an absent item and clear false leaves the whole
model — in particular the selection — exactly unchanged. -/
theorem selectItem_none_vs_extendSelection_none (r : IdentityResolver) (m : SelectionModel)
    (h : computeSelectedItems r m.store.selected ≠ []) :
    (m.selectItem r none).1.store.selected = [] ∧
    ((m.selectItem r none).1.selectedItems r).items = [] ∧
    (m.extendSelection r none false).1 = m ∧
    (m.extendSelection r none false).2 = [] := by
  refine ⟨?_, ?_, rfl, rfl⟩
  · simp [SelectionModel.selectItem]
  · simp [SelectionModel.selectItem, SelectionModel.selectedItems, computeSelectedItems]

/-- Witness for C3 at a concrete resolver and a model with selection
containing item 3. -/
theorem selectItem_none_vs_extendSelection_none_witness :
    computeSelectedItems idResolver (PositionStore.mk [3] none).selected ≠ [] ∧
    ((SelectionModel.mk ⟨[3], none⟩ none [] false).selectItem idResolver none).1.store.selected = [] ∧
    ((SelectionModel.mk ⟨[3], none⟩ none [] false).extendSelection idResolver none false).1 =
      SelectionModel.mk ⟨[3], none⟩ none [] false :=
  ⟨by simp [computeSelectedItems, idResolver],
    (selectItem_none_vs_extendSelection_none idResolver
      (SelectionModel.mk ⟨[3], none⟩ none [] false)
      (by simp [computeSelectedItems, idResolver])).1,
    (selectItem_none_vs_extendSelection_none idResolver
      (SelectionModel.mk ⟨[3], none⟩ none [] false)
      (by simp [computeSelectedItems, idResolver])).2.2.1⟩

/-- Claim C4: atomic current-plus-select.  From a state with current
item y and selection the singleton of y, setCurrentItem with item x and
select true yields one trace in which every event — including the
currentItemChanged event with new item x and old item y and the
selectionChanged(items) event with payload the singleton of x — carries
the final observable state (current x, selection the singleton of x);
no event shows current x with the selection still the singleton of y. -/
theorem setCurrentItem_select_atomic (r : IdentityResolver) (m : SelectionModel)
    (x y : ItemId) (px : Pos)
    (hc : r.Coherent) (hx : r.toPos x = some px)
    (hcur : m.currentItem = some y)
    (hsel : computeSelectedItems r m.store.selected = [y]) :
    (∀ e ∈ (m.setCurrentItem r (some x) true).2, e.2 = (some x, [x])) ∧
    (Event.currentItemChanged (some x) (some y), ((some x : Option ItemId), [x])) ∈
      (m.setCurrentItem r (some x) true).2 ∧
    (Event.selectionChangedItems [x], ((some x : Option ItemId), [x])) ∈
      (m.setCurrentItem r (some x) true).2 ∧
    (m.setCurrentItem r (some x) true).1.currentItem = some x ∧
    computeSelectedItems r (m.setCurrentItem r (some x) true).1.store.selected = [x] := by
  have hid := hc x px hx
  refine ⟨?_, ?_, ?_, ?_, ?_⟩ <;>
    simp [SelectionModel.setCurrentItem, selectionEvents, SelectionModel.obs,
      computeSelectedItems, hx, hid, hcur]

/-- Witness for C4 at a concrete resolver and a model with current item
2 and selection containing exactly item 2, setting current to 1. -/
theorem setCurrentItem_select_atomic_witness :
    idResolver.Coherent ∧ idResolver.toPos 1 = some 1 ∧
    (SelectionModel.mk ⟨[2], none⟩ (some 2) [] false).currentItem = some 2 ∧
    computeSelectedItems idResolver (SelectionModel.mk ⟨[2], none⟩ (some 2) [] false).store.selected = [2] ∧
    ((SelectionModel.mk ⟨[2], none⟩ (some 2) [] false).setCurrentItem idResolver
      (some 1) true).1.currentItem = some 1 ∧
    (Event.currentItemChanged (some 1) (some 2), ((some 1 : Option ItemId), [1])) ∈
      ((SelectionModel.mk ⟨[2], none⟩ (some 2) [] false).setCurrentItem idResolver (some 1) true).2 :=
  ⟨idResolver_coherent, rfl, rfl, by simp [computeSelectedItems, idResolver],
    (setCurrentItem_select_atomic idResolver (SelectionModel.mk ⟨[2], none⟩ (some 2) [] false)
      1 2 1 idResolver_coherent rfl rfl (by simp [computeSelectedItems, idResolver])).2.2.2.1,
    (setCurrentItem_select_atomic idResolver (SelectionModel.mk ⟨[2], none⟩ (some 2) [] false)
      1 2 1 idResolver_coherent rfl rfl (by simp [computeSelectedItems, idResolver])).2.1⟩

/-- Claim C5: round trip.  For a duplicate-free set S of identities
that all resolve to positions under a coherent resolver,
setSelectedItems with S followed by selectedItems() returns exactly S
as a set: same members, no duplicates. -/
theorem setSelectedItems_selectedItems_roundtrip (r : IdentityResolver) (m : SelectionModel)
    (S : List ItemId) (hc : r.Coherent) (hnd : S.Nodup)
    (hres : ∀ a ∈ S, (r.toPos a).isSome) :
    (∀ a, a ∈ ((m.setSelectedItems r S).1.selectedItems r).items ↔ a ∈ S) ∧
    ((m.setSelectedItems r S).1.selectedItems r).items.Nodup := by
  have hd : S.dedup = S := List.dedup_eq_self.mpr hnd
  have key : ((m.setSelectedItems r S).1.selectedItems r).items = S := by
    have h1 : ((m.setSelectedItems r S).1.selectedItems r).items =
        (S.dedup.filterMap r.toPos).filterMap r.toId := by
      simp [SelectionModel.setSelectedItems, SelectionModel.selectedItems, computeSelectedItems]
    rw [h1, hd, r.filterMap_roundtrip hc S hres]
  rw [key]
  exact ⟨fun a => Iff.rfl, hnd⟩

/-- Witness for C5 with a concrete resolver, model and the set
containing 4 and 7. -/
theorem setSelectedItems_selectedItems_roundtrip_witness :
    idResolver.Coherent ∧ ([4, 7] : List ItemId).Nodup ∧
    (idResolver.toPos 4).isSome = true ∧ (idResolver.toPos 7).isSome = true ∧
    (4 ∈ (((SelectionModel.mk ⟨[], none⟩ none [] false).setSelectedItems idResolver
      [4, 7]).1.selectedItems idResolver).items ↔ (4 : ItemId) ∈ [4, 7]) ∧
    (((SelectionModel.mk ⟨[], none⟩ none [] false).setSelectedItems idResolver
      [4, 7]).1.selectedItems idResolver).items.Nodup :=
  ⟨idResolver_coherent, by decide, rfl, rfl,
    (setSelectedItems_selectedItems_roundtrip idResolver
      (SelectionModel.mk ⟨[], none⟩ none [] false) [4, 7] idResolver_coherent (by decide)
      (by intro a ha; rfl)).1 4,
    (setSelectedItems_selectedItems_roundtrip idResolver
      (SelectionModel.mk ⟨[], none⟩ none [] false) [4, 7] idResolver_coherent (by decide)
      (by intro a ha; rfl)).2⟩

/-- Claim C6: resolution misses are silently dropped.  setSelectedItems
with a set T in which some item fails to resolve completes (it is a
total function) and the subsequent selectedItems() holds exactly the
members of T that do resolve to a position. -/
theorem setSelectedItems_drops_unresolved (r : IdentityResolver) (m : SelectionModel)
    (T : List ItemId) (hc : r.Coherent) (hmiss : ∃ b ∈ T, r.toPos b = none) :
    ∀ a, a ∈ ((m.setSelectedItems r T).1.selectedItems r).items ↔
      (a ∈ T ∧ (r.toPos a).isSome) := by
  intro a
  have h1 : ((m.setSelectedItems r T).1.selectedItems r).items =
      (T.dedup.filterMap r.toPos).filterMap r.toId := by
    simp [SelectionModel.setSelectedItems, SelectionModel.selectedItems, computeSelectedItems]
  rw [h1, r.mem_filterMap_roundtrip hc, List.mem_dedup]

/-- Witness for C6: a resolver that resolves item 1 but not item 2, and
the set containing 1 and 2; the subsequent selection holds 1, not 2. -/
theorem setSelectedItems_drops_unresolved_witness :
    missResolver.Coherent ∧
    (∃ b ∈ ([1, 2] : List ItemId), missResolver.toPos b = none) ∧
    ((1 : ItemId) ∈ (((SelectionModel.mk ⟨[], none⟩ none [] false).setSelectedItems
      missResolver [1, 2]).1.selectedItems missResolver).items ↔
      ((1 : ItemId) ∈ [1, 2] ∧ (missResolver.toPos 1).isSome)) ∧
    ((2 : ItemId) ∈ (((SelectionModel.mk ⟨[], none⟩ none [] false).setSelectedItems
      missResolver [1, 2]).1.selectedItems missResolver).items ↔
      ((2 : ItemId) ∈ [1, 2] ∧ (missResolver.toPos 2).isSome)) :=
  ⟨missResolver_coherent, ⟨2, by decide, rfl⟩,
    setSelectedItems_drops_unresolved missResolver
      (SelectionModel.mk ⟨[], none⟩ none [] false) [1, 2]
      missResolver_coherent ⟨2, by decide, rfl⟩ 1,
    setSelectedItems_drops_unresolved missResolver
      (SelectionModel.mk ⟨[], none⟩ none [] false) [1, 2]
      missResolver_coherent ⟨2, by decide, rfl⟩ 2⟩

/-- Claim C7: frame property on the current item.  For every state,
item argument and clear flag, neither selectItem nor extendSelection
changes the current item. -/
theorem selection_ops_preserve_currentItem (r : IdentityResolver) (m : SelectionModel)
    (item : Option ItemId) (clear : Bool) :
    (m.selectItem r item).1.currentItem = m.currentItem ∧
    (m.extendSelection r item clear).1.currentItem = m.currentItem := by
  constructor
  · rfl
  · cases clear with
    | true => rfl
    | false =>
      cases item with
      | none => rfl
      | some a => rfl

/-- Claim C8: fail-fast on incompatible comparison.  Comparing a
YearListItem against a tree widget item that is not a YearListItem
yields the bad-cast error from the reference dynamic_cast instead of
any ordering, and the error is returned, not swallowed; against
another YearListItem the comparison always yields an ordering for
every sort column. -/
theorem yearListItem_lt_fail_fast (stats : YearStats) (text : Nat → String) (col : Nat) :
    (∀ t, YearListItem.lt stats text col (TreeWidgetItem.plainItem t) =
      Except.error SortError.badCast) ∧
    (∀ s t, ∃ b, YearListItem.lt stats text col (TreeWidgetItem.yearListItem s t) =
      Except.ok b) := by
  constructor
  · intro t
    rfl
  · intro s t
    unfold YearListItem.lt
    by_cases h0 : col = YearListYearCol
    · subst h0
      exact ⟨_, rfl⟩
    · by_cases h1 : col = YearListFilesCountCol
      · subst h1
        exact ⟨_, rfl⟩
      · by_cases h2 : col = YearListFilesPercentBarCol ∨ col = YearListFilesPercentCol
        · cases h2 with
          | inl h2 => subst h2; exact ⟨_, rfl⟩
          | inr h2 => subst h2; exact ⟨_, rfl⟩
        · by_cases h3 : col = YearListSizeCol
          · subst h3
            exact ⟨_, rfl⟩
          · by_cases h4 : col = YearListSizePercentBarCol ∨ col = YearListSizePercentCol
            · cases h4 with
              | inl h4 => subst h4; exact ⟨_, rfl⟩
              | inr h4 => subst h4; exact ⟨_, rfl⟩
            · refine ⟨qTreeWidgetItemLt (TreeWidgetItem.yearListItem stats text)
                (TreeWidgetItem.yearListItem s t) col, ?_⟩
              simp [h0, h1, h2, h3, h4]

/-- Claim C10: locate gating and limit.  The locate button is enabled
exactly when a YearListItem is selected with filesCount strictly
positive and at most MAX_LOCATE_FILES; locateFiles emits its signal
exactly when the selected year is strictly positive; with no selected
item selectedYear is -1, so no signal is emitted with no selection. -/
theorem locate_gating_and_limit (currentItem : Option TreeWidgetItem) :
    (enableActions currentItem = true ↔
      ∃ s, selectedItem currentItem = some s ∧
        0 < s.filesCount ∧ s.filesCount ≤ MAX_LOCATE_FILES) ∧
    (∀ y, locateFiles currentItem = some y ↔
      (selectedYear currentItem > 0 ∧ y = selectedYear currentItem)) ∧
    (selectedItem currentItem = none → selectedYear currentItem = -1) ∧
    (currentItem = none → selectedItem currentItem = none ∧ locateFiles currentItem = none) := by
  refine ⟨?_, ?_, ?_, ?_⟩
  · cases h : selectedItem currentItem with
    | none => simp [enableActions, h]
    | some s =>
      simp only [enableActions, h]
      constructor
      · intro hb
        rw [Bool.and_eq_true, decide_eq_true_iff, decide_eq_true_iff] at hb
        exact ⟨s, rfl, hb.1, hb.2⟩
      · rintro ⟨s2, hs2, hpos, hle⟩
        injection hs2 with he
        subst he
        rw [Bool.and_eq_true, decide_eq_true_iff, decide_eq_true_iff]
        exact ⟨hpos, hle⟩
  · intro y
    by_cases h : selectedYear currentItem > 0
    · simp [locateFiles, h, eq_comm]
    · simp [locateFiles, h]
  · intro h
    simp [selectedYear, h]
  · intro h
    subst h
    exact ⟨rfl, rfl⟩

/-- Witness for C10 at a selected YearListItem of year 2001 with 5
files, and at no selection. -/
theorem locate_gating_and_limit_witness :
    (enableActions (some (TreeWidgetItem.yearListItem (YearStats.mk 2001 5 0 0 0)
      fun _ => "")) = true ↔
      ∃ s, selectedItem (some (TreeWidgetItem.yearListItem (YearStats.mk 2001 5 0 0 0)
        fun _ => "")) = some s ∧ 0 < s.filesCount ∧ s.filesCount ≤ MAX_LOCATE_FILES) ∧
    (locateFiles (some (TreeWidgetItem.yearListItem (YearStats.mk 2001 5 0 0 0)
      fun _ => "")) = some 2001 ↔
      (selectedYear (some (TreeWidgetItem.yearListItem (YearStats.mk 2001 5 0 0 0)
        fun _ => "")) > 0 ∧
        (2001 : Int) = selectedYear (some (TreeWidgetItem.yearListItem
          (YearStats.mk 2001 5 0 0 0) fun _ => "")))) ∧
    (selectedItem (none : Option TreeWidgetItem) = none ∧
      locateFiles (none : Option TreeWidgetItem) = none) :=
  ⟨(locate_gating_and_limit (some (TreeWidgetItem.yearListItem (YearStats.mk 2001 5 0 0 0)
      fun _ => ""))).1,
    (locate_gating_and_limit (some (TreeWidgetItem.yearListItem (YearStats.mk 2001 5 0 0 0)
      fun _ => ""))).2.1 2001,
    (locate_gating_and_limit (none : Option TreeWidgetItem)).2.2.2 rfl⟩

theorem mem_intRangeIncl (lo hi yr : Int) :
    yr ∈ intRangeIncl lo hi ↔ lo ≤ yr ∧ yr ≤ hi := by
  simp only [intRangeIncl, List.mem_map, List.mem_range]
  constructor
  · rintro ⟨i, hlt, rfl⟩
    omega
  · rintro ⟨h1, h2⟩
    exact ⟨(yr - lo).toNat, by omega, by omega⟩

theorem intRangeIncl_sorted (lo hi : Int) : List.Sorted (· < ·) (intRangeIncl lo hi) := by
  unfold intRangeIncl
  rw [List.Sorted, List.pairwise_map]
  exact (List.pairwise_lt_range ((hi + 1 - lo).toNat)).imp fun hab => by omega

theorem sorted_le_getLast! :
    ∀ l : List Int, List.Sorted (· < ·) l → ∀ x ∈ l, x ≤ l.getLast! := by
  intro l
  induction l with
  | nil =>
    intro _ x hx
    cases hx
  | cons a t ih =>
    intro hs x hx
    cases t with
    | nil =>
      rcases List.mem_cons.mp hx with rfl | h2
      · exact le_refl x
      · cases h2
    | cons c t2 =>
      have hgl : (a :: c :: t2).getLast! = (c :: t2).getLast! := by
        rw [List.getLast!_cons, List.getLast!_cons, List.getLastD_cons]
      rcases List.mem_cons.mp hx with rfl | h2
      · have hab : x < c := List.rel_of_sorted_cons hs c (List.mem_cons_self c t2)
        have hbl : c ≤ (c :: t2).getLast! :=
          ih hs.of_cons c (List.mem_cons_self c t2)
        rw [hgl]
        exact le_trans (le_of_lt hab) hbl
      · rw [hgl]
        exact ih hs.of_cons x h2

theorem sorted_contiguous_mem (f L : Int) (rest : List Int)
    (hs : List.Sorted (· < ·) (f :: rest))
    (hlast : (f :: rest).getLast! ≤ L)
    (hcount : L - f = ((f :: rest).length : Int) - 1) :
    ∀ yr, f ≤ yr → yr ≤ L → yr ∈ (f :: rest) := by
  intro yr h1 h2
  have hnd : (f :: rest).Nodup := hs.imp fun h => ne_of_lt h
  have hsub : (f :: rest).toFinset ⊆ Finset.Icc f L := by
    intro x hx
    rw [List.mem_toFinset] at hx
    rw [Finset.mem_Icc]
    constructor
    · rcases List.mem_cons.mp hx with rfl | hx2
      · exact le_refl x
      · exact le_of_lt (List.rel_of_sorted_cons hs x hx2)
    · exact le_trans (sorted_le_getLast! (f :: rest) hs x hx) hlast
  have hcard : ((f :: rest).toFinset).card = (Finset.Icc f L).card := by
    rw [List.toFinset_card_of_nodup hnd, Int.card_Icc]
    omega
  have hfeq : (f :: rest).toFinset = Finset.Icc f L :=
    Finset.eq_of_subset_of_card_le hsub (le_of_eq hcard.symm)
  have hmem : yr ∈ (f :: rest).toFinset := by
    rw [hfeq, Finset.mem_Icc]
    exact ⟨h1, h2⟩
  exact List.mem_toFinset.mp hmem

theorem findGaps_cons (f : Int) (rest : List Int) (b : Bool) (ty : Int) :
    findGaps (f :: rest) b ty =
      if lastYearOf (f :: rest) b ty - f = ((f :: rest).length : Int) - 1 then []
      else (intRangeIncl f (lastYearOf (f :: rest) b ty)).filter
        fun yr => decide (yr ∉ (f :: rest)) := by
  rfl

/-- Claim C9 counterexample: with collected years 2000, 2002, 2003 —
sorted ascending without duplicates — gaps starting with the current
year and current year 2002, findGaps returns the empty list although
2001 lies between years.first() and lastYear and is not collected, so
the claimed gap characterization fails at this input. -/
theorem findGaps_claim_counterexample :
    List.Sorted (· < ·) ([2000, 2002, 2003] : List Int) ∧
    lastYearOf [2000, 2002, 2003] true 2002 = 2002 ∧
    findGaps [2000, 2002, 2003] true 2002 = [] ∧
    ¬ (∀ yr : Int, yr ∈ findGaps [2000, 2002, 2003] true 2002 ↔
      ((2000 : Int) ≤ yr ∧ yr ≤ lastYearOf [2000, 2002, 2003] true 2002 ∧
        yr ∉ ([2000, 2002, 2003] : List Int))) := by
  refine ⟨by decide, by decide, by decide, ?_⟩
  intro h
  exact absurd ((h 2001).mpr (by decide)) (by decide)

/-- Claim C9 (amended): findGaps returns the empty list for an empty
year list; for a non-empty list that is sorted ascending without
duplicates, and under the additional precondition that the largest
collected year is at most lastYear (automatic when
startGapsWithCurrentYear is false, and forced by the counterexample
when it is true), findGaps returns in ascending order exactly the years
yr with years.first() ≤ yr ≤ lastYear that are not collected; in
particular it returns the empty list whenever lastYear - years.first()
equals years.count() - 1. -/
theorem findGaps_gap_characterization (years : List Int) (b : Bool) (ty : Int)
    (hsorted : List.Sorted (· < ·) years)
    (hlast : years ≠ [] → years.getLast! ≤ lastYearOf years b ty) :
    (years = [] → findGaps years b ty = []) ∧
    (∀ yr, yr ∈ findGaps years b ty ↔
      (years ≠ [] ∧ years.head! ≤ yr ∧ yr ≤ lastYearOf years b ty ∧ yr ∉ years)) ∧
    List.Sorted (· < ·) (findGaps years b ty) ∧
    (years ≠ [] → lastYearOf years b ty - years.head! = (years.length : Int) - 1 →
      findGaps years b ty = []) := by
  cases years with
  | nil =>
    refine ⟨fun _ => rfl, ?_, ?_, ?_⟩
    · intro yr
      constructor
      · intro h
        cases h
      · rintro ⟨h, _⟩
        exact absurd rfl h
    · exact List.sorted_nil
    · intro h
      exact absurd rfl h
  | cons f rest =>
    have hne : f :: rest ≠ [] := List.cons_ne_nil f rest
    simp only [List.head!_cons]
    rw [findGaps_cons]
    by_cases hcount :
        lastYearOf (f :: rest) b ty - f = ((f :: rest).length : Int) - 1
    · rw [if_pos hcount]
      refine ⟨fun h => absurd h hne, ?_, List.sorted_nil, fun _ _ => rfl⟩
      intro yr
      constructor
      · intro h
        cases h
      · rintro ⟨_, h1, h2, h3⟩
        exact absurd (sorted_contiguous_mem f (lastYearOf (f :: rest) b ty) rest
          hsorted (hlast hne) hcount yr h1 h2) h3
    · rw [if_neg hcount]
      refine ⟨fun h => absurd h hne, ?_, ?_, ?_⟩
      · intro yr
        rw [List.mem_filter, mem_intRangeIncl, decide_eq_true_iff]
        constructor
        · rintro ⟨⟨ha, hb2⟩, hc⟩
          exact ⟨hne, ha, hb2, hc⟩
        · rintro ⟨_, ha, hb2, hc⟩
          exact ⟨⟨ha, hb2⟩, hc⟩
      · exact (intRangeIncl_sorted f (lastYearOf (f :: rest) b ty)).filter _
      · intro _ hcount2
        exact absurd hcount2 hcount

/-- Witness for the amended C9 with years 2000 and 2002, gaps starting
with current year 2003: the gap years are exactly 2001 and 2003. -/
theorem findGaps_gap_characterization_witness :
    List.Sorted (· < ·) ([2000, 2002] : List Int) ∧
    (([2000, 2002] : List Int) ≠ [] →
      ([2000, 2002] : List Int).getLast! ≤ lastYearOf [2000, 2002] true 2003) ∧
    ((2001 : Int) ∈ findGaps [2000, 2002] true 2003 ↔
      (([2000, 2002] : List Int) ≠ [] ∧
        ([2000, 2002] : List Int).head! ≤ 2001 ∧
        (2001 : Int) ≤ lastYearOf [2000, 2002] true 2003 ∧
        (2001 : Int) ∉ ([2000, 2002] : List Int))) ∧
    List.Sorted (· < ·) (findGaps [2000, 2002] true 2003) :=
  ⟨by decide, fun _ => by decide,
    (findGaps_gap_characterization [2000, 2002] true 2003 (by decide)
      (fun _ => by decide)).2.1 2001,
    (findGaps_gap_characterization [2000, 2002] true 2003 (by decide)
      (fun _ => by decide)).2.2.1⟩

end QDirStat
